import Mathlib

/-!
Shallow embedding of `src/shared/core/src/cancellable_barrier.rs`.

The barrier state guarded by the mutex is the struct `BarrierState`; its
`usize` fields are modelled as `Nat`.  Each public operation is modelled as a
pure function on `BarrierState`.  Since all mutation of the state happens
under the single mutex, an operation is one atomic step on the state; the
condition-variable side effect (`self.condvar.notify_all()`) is recorded as a
Boolean flag in the operation's result, and blocking of a waiter is recorded
explicitly in the outcome of `wait`.  A blocked waiter's behaviour upon a
wakeup is the re-check of the loop guard
`state.count < state.total && state.generation == generation && !state.cancelled`
followed by the code after the loop; it mutates nothing, so it is modelled as
a read-only function `wakeCheck` of the state and the arrival generation.
-/

namespace CancellableBarrier

/-- Error returned when attempting to wait on a cancelled barrier
(struct `CancelledBarrier`). -/
structure CancelledBarrier where
deriving Repr, DecidableEq

/-- The state guarded by `mutex` (struct `BarrierState`). -/
structure BarrierState where
  count : Nat
  total : Nat
  generation : Nat
  cancelled : Bool
deriving Repr, DecidableEq

/-- `CancellableBarrier::new`: the `assert!(n > 0)` panic is modelled as
`none`; otherwise the freshly constructed state is returned. -/
def new (n : Nat) : Option BarrierState :=
  if 0 < n then
    some { count := 0, total := n, generation := 0, cancelled := false }
  else
    none

/-- How a single call to `wait` leaves the calling thread after the initial
critical section: it fails at once, or blocks on the condvar remembering its
arrival generation, or completes the round and returns at once. -/
inductive WaitOutcome where
  | errCancelled
  | blocked (arrivalGen : Nat)
  | completed (g : Nat)
deriving Repr, DecidableEq

/-- Result of the initial critical section of `wait`: the state left behind,
the calling thread's outcome, and whether `notify_all` was issued. -/
structure WaitStep where
  state : BarrierState
  outcome : WaitOutcome
  notifies : Bool
deriving Repr, DecidableEq

/-- `CancellableBarrier::wait`, up to the point where the thread either
returns or blocks.  Mirrors the source: an early `Err` when `cancelled`, else
`generation` is read, `count` is incremented, and the thread either enters
the condvar loop (`count < total`) or completes the round (resetting `count`
to 0, incrementing `generation` and notifying all). -/
def wait (s : BarrierState) : WaitStep :=
  if s.cancelled then
    { state := s, outcome := .errCancelled, notifies := false }
  else
    let generation := s.generation
    let s1 : BarrierState := { s with count := s.count + 1 }
    if s1.count < s1.total then
      { state := s1, outcome := .blocked generation, notifies := false }
    else
      { state := { s1 with count := 0, generation := s1.generation + 1 },
        outcome := .completed generation,
        notifies := true }

/-- The guard of the condvar loop in `wait`:
`state.count < state.total && state.generation == generation && !state.cancelled`. -/
def waitLoopGuard (s : BarrierState) (generation : Nat) : Bool :=
  decide (s.count < s.total) && decide (s.generation = generation) && !s.cancelled

/-- What a blocked waiter (arrival generation `generation`) does when it is
woken and re-acquires the lock in state `s`: if the loop guard still holds it
keeps waiting (`none`); otherwise it exits the loop and returns
`Err(CancelledBarrier)` when `s.cancelled`, else `Ok(generation)`.  The
waiter mutates no state on this path. -/
def wakeCheck (s : BarrierState) (generation : Nat) :
    Option (Except CancelledBarrier Nat) :=
  if waitLoopGuard s generation then
    none
  else if s.cancelled then
    some (Except.error {})
  else
    some (Except.ok generation)

/-- `CancellableBarrier::cancel`: sets `cancelled` and issues `notify_all`
(the Boolean records whether `notify_all` was issued). -/
def cancel (s : BarrierState) : BarrierState × Bool :=
  ({ s with cancelled := true }, true)

/-- `CancellableBarrier::reset`: clears `cancelled`, zeroes `count` and
increments `generation`.  The source body contains no `notify_all`, hence the
notification flag is `false`. -/
def reset (s : BarrierState) : BarrierState × Bool :=
  ({ s with cancelled := false, count := 0, generation := s.generation + 1 },
    false)

/-- `CancellableBarrier::is_cancelled`: reads the flag, mutating nothing. -/
def is_cancelled (s : BarrierState) : Bool :=
  s.cancelled

/-- The four public operations, viewed as steps on the guarded state. -/
inductive Op where
  | wait
  | cancel
  | reset
  | isCancelled
deriving Repr, DecidableEq

/-- The state left behind by one public operation (`is_cancelled` and a
blocked waiter's wake path mutate nothing). -/
def applyOp (s : BarrierState) (op : Op) : BarrierState :=
  match op with
  | .wait => (wait s).state
  | .cancel => (cancel s).1
  | .reset => (reset s).1
  | .isCancelled => s

/-- States reachable at operation boundaries from a barrier constructed with
`new n`. -/
inductive Reachable (n : Nat) : BarrierState → Prop where
  | init : ∀ s, new n = some s → Reachable n s
  | step : ∀ s op, Reachable n s → Reachable n (applyOp s op)

/-- C2: whenever `cancelled` is true, `wait` fails at once with
`CancelledBarrier`, leaves the whole state unchanged (in particular `count`
is not incremented), does not block and issues no notification. -/
theorem wait_cancelled_immediate (s : BarrierState) (h : s.cancelled = true) :
    (wait s).outcome = WaitOutcome.errCancelled ∧ (wait s).state = s ∧
      (wait s).notifies = false := by
  simp [wait, h]

/-- Witness for C2 at the concrete state `⟨1, 3, 0, true⟩`. -/
theorem wait_cancelled_immediate_witness :
    (wait ⟨1, 3, 0, true⟩).outcome = WaitOutcome.errCancelled ∧
      (wait ⟨1, 3, 0, true⟩).state = ⟨1, 3, 0, true⟩ ∧
      (wait ⟨1, 3, 0, true⟩).notifies = false :=
  wait_cancelled_immediate ⟨1, 3, 0, true⟩ rfl

/-- C3: from a non-cancelled state with `count = total - 1`, the next `wait`
completes the round: it returns `Ok` of the generation observed at entry
without blocking, resets `count` to 0, increments `generation`, and issues
the wake-all notification. -/
theorem wait_last_arrival (s : BarrierState) (hc : s.cancelled = false)
    (ht : 0 < s.total) (hcount : s.count = s.total - 1) :
    (wait s).outcome = WaitOutcome.completed s.generation ∧
      (wait s).state = { s with count := 0, generation := s.generation + 1 } ∧
      (wait s).notifies = true := by
  have h1 : s.count + 1 = s.total := by omega
  simp [wait, hc, h1]

/-- Witness for C3 at the concrete state `⟨2, 3, 5, false⟩`. -/
theorem wait_last_arrival_witness :
    (wait ⟨2, 3, 5, false⟩).outcome = WaitOutcome.completed 5 ∧
      (wait ⟨2, 3, 5, false⟩).state = ⟨0, 3, 6, false⟩ ∧
      (wait ⟨2, 3, 5, false⟩).notifies = true :=
  wait_last_arrival ⟨2, 3, 5, false⟩ rfl (by decide) rfl

/-- C4: a blocked waiter whose arrival generation differs from the current
generation exits its wait loop with `Ok` of its arrival generation whenever
`cancelled` is false, regardless of how the generation advanced; in
particular, after a `reset` every waiter whose arrival generation is at most
the pre-reset generation exits with `Ok` once woken. -/
theorem wake_ok_of_generation_advanced (s : BarrierState) (g : Nat)
    (hg : s.generation ≠ g) (hc : s.cancelled = false) :
    wakeCheck s g = some (Except.ok g) ∧
      ∀ t : BarrierState, g ≤ t.generation →
        wakeCheck (reset t).1 g = some (Except.ok g) := by
  constructor
  · simp [wakeCheck, waitLoopGuard, hg, hc]
  · intro t ht
    have hne : (reset t).1.generation ≠ g := by
      simp only [reset]
      omega
    simp [wakeCheck, waitLoopGuard, reset, hne]
    omega

/-- Witness for C4 at arrival generation 6, woken in state `⟨1, 3, 7, false⟩`,
and after a reset of state `⟨0, 2, 9, true⟩`. -/
theorem wake_ok_of_generation_advanced_witness :
    wakeCheck ⟨1, 3, 7, false⟩ 6 = some (Except.ok 6) ∧
      wakeCheck (reset ⟨0, 2, 9, true⟩).1 6 = some (Except.ok 6) :=
  ⟨(wake_ok_of_generation_advanced ⟨1, 3, 7, false⟩ 6 (by decide) rfl).1,
    (wake_ok_of_generation_advanced ⟨1, 3, 7, false⟩ 6 (by decide) rfl).2
      ⟨0, 2, 9, true⟩ (by decide)⟩

/-- C5: from every state, `reset` yields `cancelled = false`, `count = 0`,
`generation` one more than before, and an unchanged `total`. -/
theorem reset_sets_fresh_round (s : BarrierState) :
    (reset s).1 =
      { count := 0, total := s.total, generation := s.generation + 1,
        cancelled := false } :=
  rfl

/-- C6: no operation decreases `generation`, and an operation strictly
increases it exactly when it is a `reset` or a `wait` that completed the
round (the last arrival); every other operation leaves it unchanged. -/
theorem generation_monotone (s : BarrierState) (op : Op) :
    s.generation ≤ (applyOp s op).generation ∧
      (s.generation < (applyOp s op).generation ↔
        op = Op.reset ∨
          (op = Op.wait ∧
            (wait s).outcome = WaitOutcome.completed s.generation)) := by
  cases op with
  | wait =>
    by_cases hc : s.cancelled
    · simp [applyOp, wait, hc]
    · by_cases hl : s.count + 1 < s.total
      · simp [applyOp, wait, hc, hl]
      · simp [applyOp, wait, hc, hl]
  | cancel => simp [applyOp, cancel]
  | reset => simp [applyOp, reset]
  | isCancelled => simp [applyOp]

/-- C7: constructing with `n = 0` is the `assert!` panic (no barrier value at
all), and for every positive `n` construction yields the initial state with
`count = 0`, `generation = 0`, `cancelled = false` and `total = n`. -/
theorem new_spec :
    new 0 = none ∧
      ∀ n : Nat, 0 < n →
        new n = some { count := 0, total := n, generation := 0,
                       cancelled := false } := by
  refine ⟨rfl, fun n hn => ?_⟩
  simp [new, hn]

/-- Witness for C7 at `n = 3`. -/
theorem new_spec_witness :
    new 0 = none ∧ 0 < 3 ∧ new 3 = some ⟨0, 3, 0, false⟩ :=
  ⟨new_spec.1, by decide, new_spec.2 3 (by decide)⟩

/-- C8: `cancel` is idempotent: applying it to the state it produced yields
the same state and the same notification behaviour, so a second `cancel` has
no additional effect. -/
theorem cancel_idempotent (s : BarrierState) :
    cancel (cancel s).1 = cancel s :=
  rfl

/-- C9: `cancel` only sets the `cancelled` flag; `count`, `generation` and
`total` are left unchanged. -/
theorem cancel_frame (s : BarrierState) :
    (cancel s).1.cancelled = true ∧ (cancel s).1.count = s.count ∧
      (cancel s).1.generation = s.generation ∧
      (cancel s).1.total = s.total :=
  ⟨rfl, rfl, rfl, rfl⟩

/-- C1 fails on the code: at a non-cancelled state with one waiter blocked
(`⟨1, 2, 0, false⟩`), `cancel` issues the wake-all notification but `reset`
does not — its body contains no `notify_all` at all, for any state. -/
theorem reset_issues_no_notification :
    (cancel ⟨1, 2, 0, false⟩).2 = true ∧
      (reset ⟨1, 2, 0, false⟩).2 = false ∧
      ∀ s : BarrierState, (reset s).2 = false :=
  ⟨rfl, rfl, fun _ => rfl⟩

/-- C10: every state reachable (at operation boundaries) from a constructed
barrier satisfies `count < total`, and `total` stays equal to the
construction argument under every operation. -/
theorem reachable_count_lt_total (n : Nat) (s : BarrierState)
    (h : Reachable n s) : s.count < s.total ∧ s.total = n := by
  induction h with
  | init s hs =>
    rw [new] at hs
    split at hs
    next hn =>
      injection hs with hs
      subst hs
      exact ⟨hn, rfl⟩
    next => exact Option.noConfusion hs
  | step s op _ ih =>
    obtain ⟨hlt, htot⟩ := ih
    cases op with
    | wait =>
      by_cases hc : s.cancelled
      · simpa [applyOp, wait, hc] using ⟨hlt, htot⟩
      · by_cases hl : s.count + 1 < s.total
        · simp [applyOp, wait, hc, hl]
          omega
        · simp [applyOp, wait, hc, hl]
          omega
    | cancel => simpa [applyOp, cancel] using ⟨hlt, htot⟩
    | reset =>
      simp only [applyOp, reset]
      exact ⟨by omega, by simpa using htot⟩
    | isCancelled => exact ⟨hlt, htot⟩

/-- Witness for C10 at the freshly constructed barrier for `n = 3`. -/
theorem reachable_count_lt_total_witness :
    (⟨0, 3, 0, false⟩ : BarrierState).count <
        (⟨0, 3, 0, false⟩ : BarrierState).total ∧
      (⟨0, 3, 0, false⟩ : BarrierState).total = 3 :=
  reachable_count_lt_total 3 ⟨0, 3, 0, false⟩ (Reachable.init _ rfl)

end CancellableBarrier
